import Mathlib

/-!
Verification of the go-auth-manager token lifecycle module: a shallow
embedding of `auth_manager.go` (package `auth_manager`).

The module manages stateful tokens (ResetPassword, VerifyEmail, RefreshToken)
backed by a Redis store: `GenerateToken` draws a random key and stores the
claims under it with a TTL, `DecodeToken` looks the key up and then runs a
JWT parse on the key string itself, `DestroyToken` deletes the key.

External collaborators are modelled per their documented contracts:
  * the Redis client (go-redis v8) as an explicit state: a current time and a
    list of live entries with absolute expiry; `GET` of an absent or expired
    key fails with the distinguished `redis.Nil` error, `SET` overwrites,
    `DEL` is silent on absent keys;
  * the JWT library (golang-jwt v4) as a disjoint-by-construction string
    model: a Go string handled by this module is either a well-formed compact
    JWT (carrying the header algorithm, the embedded claims and the key its
    signature was made with) or a plain non-JWT string. `ParseWithClaims`
    fails on non-JWT strings, propagates a keyfunc error, checks the HMAC
    signature against the key the keyfunc returned, and on a nil error the
    returned token has `Valid = true` (in v4 any claim/signature failure
    surfaces as a non-nil error, so the `!jwtToken.Valid` branch of
    `DecodeToken` is dead code).

Machine integers do not overflow in this module (times are `time.Time` /
`time.Duration`); times and durations are modelled as `Int` nanoseconds.
-/

namespace AuthManager

/-- The `TokenType` enumeration (auth_manager.go lines 23-30). -/
inductive TokenType
  | ResetPassword
  | VerifyEmail
  | AccessToken
  | RefreshToken
deriving DecidableEq, Repr

/-- The `TokenClaims` struct (lines 45-50): subject UUID, creation time and
token type. The embedded `jwt.StandardClaims` is zero-valued for every claims
record this module builds (`NewTokenClaims` sets none of its fields), and a
zero `ExpiresAt` passes v4 claim validation, so it carries no information
relevant to the verified properties and is omitted. -/
structure TokenClaims where
  uuid : String
  createdAt : Int
  tokenType : TokenType
deriving DecidableEq, Repr

/-- token claims constructor `NewTokenClaims` (lines 52-58). `time.Now()` is
passed in explicitly as `now`. -/
def NewTokenClaims (now : Int) (uuid : String) (tokenType : TokenType) : TokenClaims :=
  { uuid := uuid, createdAt := now, tokenType := tokenType }

/-- Signing algorithms a JWT header can name. `HS256/HS384/HS512` are the
`jwt.SigningMethodHMAC` family; `RS256`, `ES256` and the unsigned `noneAlg`
stand for the non-HMAC methods. -/
inductive SigAlg
  | HS256
  | HS384
  | HS512
  | RS256
  | ES256
  | noneAlg
deriving DecidableEq, Repr

/-- Whether the Go type assertion `token.Method.(*jwt.SigningMethodHMAC)`
succeeds for a method: exactly the HMAC family. -/
def SigAlg.isHMAC : SigAlg → Bool
  | .HS256 => true
  | .HS384 => true
  | .HS512 => true
  | _ => false

/-- `var TokenEncodingAlgorithm = jwt.SigningMethodHS512` (line 21). -/
def TokenEncodingAlgorithm : SigAlg := .HS512

/-- `const TokenByteLength = 32` (line 12). -/
def TokenByteLength : Nat := 32

/-- Model of the Go strings this module handles. A compact JWT serialization
is three base64url segments joined by dots; `Str.jwt alg claims sigKey` is
such a string whose header names `alg`, whose payload encodes `claims` and
whose signature was produced under `alg` with key `sigKey`. `Str.raw s` is
any other string: in particular the output of `generateRandomString` (hex of
32 random bytes, dot-free, hence never a parseable JWT) and the empty
string. -/
inductive Str
  | raw (s : String)
  | jwt (alg : SigAlg) (claims : TokenClaims) (sigKey : String)
deriving DecidableEq, Repr

/-- Errors observable from the module. The first four are the package-level
variables of lines 14-19; `redisNil` is go-redis `redis.Nil` ("key does not
exist"); `malformedToken` and `signatureInvalid` are jwt-library internal
parse errors; `randFailure` is an error from the random source. -/
inductive GoError
  | invalidToken
  | invalidTokenType
  | unexpectedSigningMethod
  | notFound
  | redisNil
  | malformedToken
  | signatureInvalid
  | randFailure (msg : String)
deriving DecidableEq, Repr

/-- One live Redis entry: key, stored claims value, and absolute expiry time
(`none` = no expiry, from a zero TTL). -/
structure Entry where
  key : Str
  val : TokenClaims
  expireAt : Option Int
deriving DecidableEq, Repr

/-- The Redis store state: the current time and the stored entries. -/
structure RedisState where
  now : Int
  entries : List Entry
deriving DecidableEq, Repr

/-- First entry with the given key. -/
def lookupEntry : List Entry → Str → Option Entry
  | [], _ => none
  | e :: rest, k => if e.key = k then some e else lookupEntry rest k

/-- All entries except those with the given key. -/
def removeKey : List Entry → Str → List Entry
  | [], _ => []
  | e :: rest, k => if e.key = k then removeKey rest k else e :: removeKey rest k

/-- Whether an entry is still live at time `now` (Redis drops a key once its
expiry is reached). -/
def Entry.liveAt (e : Entry) (now : Int) : Bool :=
  match e.expireAt with
  | none => true
  | some t => now < t

/-- Redis `GET key`: the stored value if the key exists and has not expired,
otherwise the distinguished error `redis.Nil`. -/
def redisGet (st : RedisState) (key : Str) : Except GoError TokenClaims :=
  match lookupEntry st.entries key with
  | none => .error .redisNil
  | some e => if e.liveAt st.now then .ok e.val else .error .redisNil

/-- Redis `SET key value expr`: overwrites any previous entry; a zero
duration means no expiry, otherwise the key expires `expr` after now. -/
def redisSet (st : RedisState) (key : Str) (val : TokenClaims) (expr : Int) : RedisState :=
  { st with
    entries :=
      { key := key, val := val
        expireAt := if expr = 0 then none else some (st.now + expr) }
        :: removeKey st.entries key }

/-- Redis `DEL key`: removes the key; deleting an absent key is not an
error. -/
def redisDel (st : RedisState) (key : Str) : RedisState :=
  { st with entries := removeKey st.entries key }

/-- The `AuthManagerOpts` struct (lines 40-42): the private signing key. -/
structure AuthManagerOpts where
  privateKey : String
deriving DecidableEq, Repr

/-- The key-resolution callback passed to `jwt.ParseWithClaims` inside
`DecodeToken` (lines 103-109): if the token method is not of the HMAC family
it refuses with `ErrUnexpectedSigningMethod`, otherwise it supplies the
configured private key. -/
def keyfunc (privateKey : String) (alg : SigAlg) : Except GoError String :=
  if alg.isHMAC then .ok privateKey else .error .unexpectedSigningMethod

/-- Model of `jwt.ParseWithClaims(tokenString, claims, keyfunc)` from
golang-jwt v4, the external signing primitive: a non-JWT string fails to
parse before the keyfunc runs; a keyfunc error is propagated (wrapped in a
`ValidationError`, which `DecodeToken` only tests for non-nil-ness); an HMAC
signature verifies exactly when it was produced with the key the keyfunc
returned. On a nil error the parsed claims are populated and the token is
`Valid`. -/
def parseWithClaims (privateKey : String) (s : Str) : Except GoError TokenClaims :=
  match s with
  | .raw _ => .error .malformedToken
  | .jwt alg claims sigKey =>
    match keyfunc privateKey alg with
    | .error e => .error e
    | .ok k => if sigKey = k then .ok claims else .error .signatureInvalid

/-- Outcome of one draw from the random source. -/
inductive RandResult
  | ok (s : String)
  | err (e : GoError)
deriving DecidableEq, Repr

/-- Modelled from the spec: the repository helper `generateRandomString`
(called at line 76) is not under src/. Spec 4.1: it draws `byteLength = 32`
cryptographically random bytes and returns them as a fixed-length random
string used purely as a store key (dot-free, hence a `Str.raw`, never a
parseable JWT), or propagates the random source error without falling back.
The draw outcome is supplied by the oracle `rand`. -/
def generateRandomString (byteLength : Nat) (rand : RandResult) : Except GoError Str :=
  match byteLength, rand with
  | _, .ok s => .ok (.raw s)
  | _, .err e => .error e

/-- The `GenerateToken` method (lines 75-87): draw a random key; on failure
return the empty string and the error unchanged, touching the store not at
all; otherwise store the claims under the key with TTL `expr` and return the
key. Returns (token, error, updated store); the Redis `SET` of the in-model
store does not fail. The `tokenType` argument is unused by the source
(the type lives inside `tokenClaims`). -/
def GenerateToken (st : RedisState) (rand : RandResult) (tokenType : TokenType)
    (tokenClaims : TokenClaims) (expr : Int) : Str × Option GoError × RedisState :=
  match generateRandomString TokenByteLength rand with
  | .error e => (.raw "", some e, st)
  | .ok token => (token, none, redisSet st token tokenClaims expr)

/-- The `DecodeToken` method (lines 95-124): `GET` the key, returning the
raw store error on failure (the fetched value is bound to `_` and
discarded); then run `jwt.ParseWithClaims` on the key string itself,
returning `ErrInvalidToken` on any parse error; on success (`jwtToken.Valid`
holds whenever the parse error is nil) check the embedded token type against
the requested one, returning `ErrInvalidTokenType` on mismatch and the
claims otherwise. -/
def DecodeToken (opts : AuthManagerOpts) (st : RedisState) (token : Str)
    (tokenType : TokenType) : Except GoError TokenClaims :=
  match redisGet st token with
  | .error err => .error err
  | .ok _ =>
    match parseWithClaims opts.privateKey token with
    | .error _ => .error .invalidToken
    | .ok tokenClaims =>
      if tokenClaims.tokenType ≠ tokenType then .error .invalidTokenType
      else .ok tokenClaims

/-- The `DestroyToken` method (lines 127-134): Redis `DEL` of the key;
returns (error, updated store), and the in-model `DEL` never errors. -/
def DestroyToken (st : RedisState) (key : Str) : Option GoError × RedisState :=
  (none, redisDel st key)

end AuthManager

namespace AuthManager

/-! Helper lemmas about the store model. -/

theorem lookupEntry_removeKey_self (l : List Entry) (k : Str) :
    lookupEntry (removeKey l k) k = none := by
  induction l with
  | nil => rfl
  | cons e rest ih =>
    by_cases h : e.key = k <;> simp [removeKey, h, lookupEntry, ih]

theorem removeKey_removeKey (l : List Entry) (k : Str) :
    removeKey (removeKey l k) k = removeKey l k := by
  induction l with
  | nil => rfl
  | cons e rest ih =>
    by_cases h : e.key = k <;> simp [removeKey, h, ih]

theorem redisGet_error_eq (st : RedisState) (key : Str) (e : GoError)
    (h : redisGet st key = .error e) : e = .redisNil := by
  unfold redisGet at h
  split at h
  · simp_all
  · split at h <;> simp_all

/-- C6: after `DestroyToken key` succeeds (first conjunct: it reports no
error), a subsequent `DecodeToken key anyType` on the resulting store fails
with the store not-found error (`redis.Nil`) and never returns claims, no
matter how much TTL the entry had left: `DEL` removes the entry outright. -/
theorem decode_after_destroy_fails (opts : AuthManagerOpts) (st : RedisState)
    (key : Str) (tokenType : TokenType) :
    (DestroyToken st key).1 = none ∧
    DecodeToken opts (DestroyToken st key).2 key tokenType = .error .redisNil := by
  refine ⟨rfl, ?_⟩
  simp [DecodeToken, DestroyToken, redisDel, redisGet, lookupEntry_removeKey_self]

/-- C7: `DestroyToken` is idempotent: it returns no error on any store (in
particular when the key was already destroyed or never issued, since `DEL`
of an absent key is not an error), and running it twice leaves the store in
the same state as running it once. -/
theorem destroyToken_idempotent (st : RedisState) (key : Str) :
    (DestroyToken st key).1 = none ∧
    DestroyToken (DestroyToken st key).2 key = DestroyToken st key := by
  refine ⟨rfl, ?_⟩
  simp [DestroyToken, redisDel, removeKey_removeKey]

/-- C8: `NewTokenClaims uuid tokenType` copies the subject and token type
into the claims exactly as given, with no validation or transformation, and
stamps `createdAt` with the current time of the call. -/
theorem newTokenClaims_exact (now : Int) (uuid : String) (tokenType : TokenType) :
    (NewTokenClaims now uuid tokenType).uuid = uuid ∧
    (NewTokenClaims now uuid tokenType).createdAt = now ∧
    (NewTokenClaims now uuid tokenType).tokenType = tokenType :=
  ⟨rfl, rfl, rfl⟩

/-- C9: whenever `DecodeToken` succeeds, the returned claims (non-nil by
construction of the success value) carry exactly the requested token type:
every other exit of the function returns an error. -/
theorem decode_ok_claims_type_matches (opts : AuthManagerOpts) (st : RedisState)
    (token : Str) (tokenType : TokenType) (c : TokenClaims)
    (h : DecodeToken opts st token tokenType = .ok c) :
    c.tokenType = tokenType := by
  unfold DecodeToken at h
  split at h
  · exact Except.noConfusion h
  · split at h
    · exact Except.noConfusion h
    · split at h
      · exact Except.noConfusion h
      · rename_i hty
        have hc := Except.ok.inj h
        subst hc
        exact not_not.mp hty

/-- C9 witness: a concrete successful decode (an HMAC-signed JWT string
present in the store, decoded with its own type) has matching type. -/
theorem decode_ok_claims_type_matches_witness :
    TokenClaims.tokenType ⟨"u", 0, .ResetPassword⟩ = TokenType.ResetPassword :=
  decode_ok_claims_type_matches ⟨"k"⟩
    ⟨0, [⟨.jwt .HS512 ⟨"u", 0, .ResetPassword⟩ "k", ⟨"u", 0, .ResetPassword⟩, some 10⟩]⟩
    (.jwt .HS512 ⟨"u", 0, .ResetPassword⟩ "k") .ResetPassword
    ⟨"u", 0, .ResetPassword⟩ rfl

/-- C10: when the random-key draw fails, `GenerateToken` returns the empty
string together with the generator error unmodified and performs no store
write: the resulting store state is exactly the input state. -/
theorem generateToken_atomic_on_rand_failure (st : RedisState)
    (tokenType : TokenType) (tokenClaims : TokenClaims) (expr : Int) (e : GoError) :
    GenerateToken st (.err e) tokenType tokenClaims expr = (.raw "", some e, st) :=
  rfl

end AuthManager

namespace AuthManager

/-- C1: FALSIFIED round-trip. `DecodeToken` on a key freshly returned by
`GenerateToken`, with the same token type and well before the TTL elapses
(the store lookup succeeds), does not return the stored claims: it runs the
JWT parse on the random key string itself (never on the stored value, which
line 96 discards), the parse fails, and the caller gets `ErrInvalidToken`. -/
theorem generated_key_decode_fails_invalidToken (opts : AuthManagerOpts)
    (st : RedisState) (s : String) (tokenType : TokenType)
    (tokenClaims : TokenClaims) (expr : Int) (hexpr : 0 < expr) :
    (GenerateToken st (.ok s) tokenType tokenClaims expr).2.1 = none ∧
    DecodeToken opts (GenerateToken st (.ok s) tokenType tokenClaims expr).2.2
      (GenerateToken st (.ok s) tokenType tokenClaims expr).1 tokenType
      = .error .invalidToken := by
  refine ⟨rfl, ?_⟩
  have hne : expr ≠ 0 := by omega
  have hlt : st.now < st.now + expr := by omega
  simp [GenerateToken, generateRandomString, DecodeToken, redisGet, redisSet,
    lookupEntry, Entry.liveAt, hne, hlt, parseWithClaims]

/-- C1 witness: the concrete spec scenario (VerifyEmail token for subject u1,
TTL 5) decoded immediately with the same type yields `ErrInvalidToken`. -/
theorem generated_key_decode_fails_invalidToken_witness :
    (GenerateToken ⟨0, []⟩ (.ok "a1b2") .VerifyEmail ⟨"u1", 0, .VerifyEmail⟩ 5).2.1 = none ∧
    DecodeToken ⟨"k"⟩ (GenerateToken ⟨0, []⟩ (.ok "a1b2") .VerifyEmail ⟨"u1", 0, .VerifyEmail⟩ 5).2.2
      (GenerateToken ⟨0, []⟩ (.ok "a1b2") .VerifyEmail ⟨"u1", 0, .VerifyEmail⟩ 5).1 .VerifyEmail
      = .error .invalidToken :=
  generated_key_decode_fails_invalidToken ⟨"k"⟩ ⟨0, []⟩ "a1b2" .VerifyEmail
    ⟨"u1", 0, .VerifyEmail⟩ 5 (by decide)

/-- C5: FALSIFIED type-mismatch error. Decoding a freshly generated stateful
token with a type different from the generation type returns
`ErrInvalidToken` (the opaque random key fails the JWT parse before the
type comparison is ever reached), not `ErrInvalidTokenType` as claimed. -/
theorem generated_key_decode_wrong_type_returns_invalidToken (opts : AuthManagerOpts)
    (st : RedisState) (s : String) (t1 t2 : TokenType) (tokenClaims : TokenClaims)
    (expr : Int) (hexpr : 0 < expr) (hne : t2 ≠ t1) :
    DecodeToken opts (GenerateToken st (.ok s) t1 tokenClaims expr).2.2
      (GenerateToken st (.ok s) t1 tokenClaims expr).1 t2
      = .error .invalidToken := by
  have hz : expr ≠ 0 := by omega
  have hlt : st.now < st.now + expr := by omega
  simp [GenerateToken, generateRandomString, DecodeToken, redisGet, redisSet,
    lookupEntry, Entry.liveAt, hz, hlt, parseWithClaims]

/-- C5 witness: the spec scenario (VerifyEmail token decoded as
ResetPassword) yields `ErrInvalidToken`, not `ErrInvalidTokenType`. -/
theorem generated_key_decode_wrong_type_returns_invalidToken_witness :
    DecodeToken ⟨"k"⟩
      (GenerateToken ⟨0, []⟩ (.ok "c3d4") .VerifyEmail ⟨"u1", 0, .VerifyEmail⟩ 5).2.2
      (GenerateToken ⟨0, []⟩ (.ok "c3d4") .VerifyEmail ⟨"u1", 0, .VerifyEmail⟩ 5).1
      .ResetPassword
      = .error .invalidToken :=
  generated_key_decode_wrong_type_returns_invalidToken ⟨"k"⟩ ⟨0, []⟩ "c3d4"
    .VerifyEmail .ResetPassword ⟨"u1", 0, .VerifyEmail⟩ 5 (by decide) (by decide)

/-- C2 counterexample: a token signed with the non-HMAC algorithm RS256,
present as a store key so that the signing-method check is actually reached,
is rejected with `ErrInvalidToken`, which is distinct from
`ErrUnexpectedSigningMethod`: the keyfunc error never reaches the caller. -/
theorem crafted_nonHMAC_token_error_folded :
    DecodeToken ⟨"k"⟩
      ⟨0, [⟨.jwt .RS256 ⟨"u", 0, .ResetPassword⟩ "k", ⟨"u", 0, .ResetPassword⟩, some 10⟩]⟩
      (.jwt .RS256 ⟨"u", 0, .ResetPassword⟩ "k") .ResetPassword
      = .error .invalidToken ∧
    GoError.invalidToken ≠ GoError.unexpectedSigningMethod :=
  ⟨rfl, by decide⟩

/-- C2 amended: a token whose signing method is outside the HMAC family is
never accepted, but the caller observes either the raw store not-found error
(key absent) or `ErrInvalidToken` (key present, keyfunc refuses and the
parse error is folded at line 112) — never `ErrUnexpectedSigningMethod`,
each alternative being a distinct error constructor from it. -/
theorem decode_nonHMAC_never_surfaces_unexpectedSigningMethod
    (opts : AuthManagerOpts) (st : RedisState) (alg : SigAlg)
    (claims : TokenClaims) (sigKey : String) (tokenType : TokenType)
    (h : alg.isHMAC = false) :
    DecodeToken opts st (.jwt alg claims sigKey) tokenType = .error .redisNil ∨
    DecodeToken opts st (.jwt alg claims sigKey) tokenType = .error .invalidToken := by
  unfold DecodeToken
  cases hg : redisGet st (.jwt alg claims sigKey) with
  | error e =>
    left
    have he := redisGet_error_eq _ _ _ hg
    subst he
    rfl
  | ok v =>
    right
    simp [parseWithClaims, keyfunc, h]

/-- C2 amended witness: the concrete RS256 token on an empty store falls in
the not-found alternative. -/
theorem decode_nonHMAC_never_surfaces_unexpectedSigningMethod_witness :
    DecodeToken ⟨"k"⟩ ⟨0, []⟩ (.jwt .RS256 ⟨"u2", 0, .RefreshToken⟩ "k") .RefreshToken
      = .error .redisNil ∨
    DecodeToken ⟨"k"⟩ ⟨0, []⟩ (.jwt .RS256 ⟨"u2", 0, .RefreshToken⟩ "k") .RefreshToken
      = .error .invalidToken :=
  decode_nonHMAC_never_surfaces_unexpectedSigningMethod ⟨"k"⟩ ⟨0, []⟩ .RS256
    ⟨"u2", 0, .RefreshToken⟩ "k" .RefreshToken rfl

/-- C3 counterexample: the keyfunc accepts the whole HMAC family, not only
the configured HS512: a token signed with HS256 (an algorithm different from
`TokenEncodingAlgorithm`) under the configured private key, present in the
store, is fully trusted — `DecodeToken` returns its claims. -/
theorem hs256_signed_token_trusted :
    SigAlg.HS256 ≠ TokenEncodingAlgorithm ∧
    DecodeToken ⟨"k"⟩
      ⟨0, [⟨.jwt .HS256 ⟨"u", 0, .ResetPassword⟩ "k", ⟨"u", 0, .ResetPassword⟩, some 10⟩]⟩
      (.jwt .HS256 ⟨"u", 0, .ResetPassword⟩ "k") .ResetPassword
      = .ok ⟨"u", 0, .ResetPassword⟩ :=
  ⟨by decide, rfl⟩

/-- C3 amended: the key-resolution step accepts exactly the HMAC family
(HS256, HS384 and HS512 alike), not the single configured HS512: a stored
token signed under the configured private key with algorithm `alg`, decoded
with its own type before expiry, succeeds if and only if `alg` is an HMAC
method. -/
theorem decode_accepts_exactly_hmac_algorithms (priv uuid : String)
    (now created expr : Int) (alg : SigAlg) (tokenType : TokenType)
    (hexpr : 0 < expr) :
    (DecodeToken ⟨priv⟩
        ⟨now, [⟨.jwt alg ⟨uuid, created, tokenType⟩ priv,
               ⟨uuid, created, tokenType⟩, some (now + expr)⟩]⟩
        (.jwt alg ⟨uuid, created, tokenType⟩ priv) tokenType
      = .ok ⟨uuid, created, tokenType⟩)
      ↔ alg.isHMAC = true := by
  have hlt : now < now + expr := by omega
  cases halg : alg.isHMAC <;>
    simp [DecodeToken, redisGet, lookupEntry, Entry.liveAt, hlt,
      parseWithClaims, keyfunc, halg]

/-- C3 amended witness: at HS256 the equivalence is inhabited on the right,
so the concrete HS256 decode succeeds. -/
theorem decode_accepts_exactly_hmac_algorithms_witness :
    (DecodeToken ⟨"k"⟩
        ⟨0, [⟨.jwt .HS256 ⟨"u3", 7, .VerifyEmail⟩ "k",
             ⟨"u3", 7, .VerifyEmail⟩, some (0 + 5)⟩]⟩
        (.jwt .HS256 ⟨"u3", 7, .VerifyEmail⟩ "k") .VerifyEmail
      = .ok ⟨"u3", 7, .VerifyEmail⟩)
      ↔ SigAlg.isHMAC .HS256 = true :=
  decode_accepts_exactly_hmac_algorithms "k" "u3" 0 7 5 .HS256 .VerifyEmail (by decide)

/-- C4 counterexample: decoding a key absent from the store returns the raw
store error `redis.Nil`, which is distinct from `ErrInvalidToken`: the
not-found is not mapped at the decode boundary. -/
theorem absent_key_error_not_mapped :
    DecodeToken ⟨"k"⟩ ⟨0, []⟩ (.raw "missing") .ResetPassword = .error .redisNil ∧
    GoError.redisNil ≠ GoError.invalidToken :=
  ⟨rfl, by decide⟩

/-- C4 amended: for every key absent from the store (expired, destroyed or
never issued — exactly the keys on which the store `GET` fails with
`redis.Nil`), `DecodeToken` propagates that raw store not-found error to the
caller unchanged, without mapping it into `ErrInvalidToken`. -/
theorem decode_propagates_raw_store_error (opts : AuthManagerOpts)
    (st : RedisState) (key : Str) (tokenType : TokenType)
    (h : redisGet st key = .error .redisNil) :
    DecodeToken opts st key tokenType = .error .redisNil := by
  unfold DecodeToken
  rw [h]

/-- C4 amended witness: a never-issued key on an empty store. -/
theorem decode_propagates_raw_store_error_witness :
    DecodeToken ⟨"k"⟩ ⟨0, []⟩ (.raw "gone") .ResetPassword = .error .redisNil :=
  decode_propagates_raw_store_error ⟨"k"⟩ ⟨0, []⟩ (.raw "gone") .ResetPassword rfl

end AuthManager
